import Mathlib

/-!
Verification development for the Pelican static-site configuration module
`pelicanconf.py`. The module is a flat sequence of literal constant
assignments; we embed each assigned value, gather them into a
`ConfigurationRecord`, embed the module itself as a list of named
assignment statements, and state the specified schema properties over
these definitions.
-/

/-- Value of a single `EXTRA_PATH_METADATA` entry: `{ path: ... }`. -/
structure PathMeta where
  path : String
deriving DecidableEq, Repr

/-- Source: `AUTHOR = u'Andy Gocke'`. -/
def AUTHOR : String := "Andy Gocke"

/-- Source: `SITENAME = u'comment out'`. -/
def SITENAME : String := "comment out"

/-- Source: `SITEURL = u'localhost:8000'`. -/
def SITEURL : String := "localhost:8000"

/-- Source: `TIMEZONE = 'America/Los_Angeles'`. -/
def TIMEZONE : String := "America/Los_Angeles"

/-- Source: `DEFAULT_LANG = u'en'`. -/
def DEFAULT_LANG : String := "en"

/-- Source: `DEFAULT_DATE_FORMAT = ('%Y. %b. %d')`. -/
def DEFAULT_DATE_FORMAT : String := "%Y. %b. %d"

/-- Source: `THEME = 'themes/commentout'`. -/
def THEME : String := "themes/commentout"

/-- Source: `FEED_ALL_ATOM = None`. -/
def FEED_ALL_ATOM : Option String := Option.none

/-- Source: `CATEGORY_FEED_ATOM = None`. -/
def CATEGORY_FEED_ATOM : Option String := Option.none

/-- Source: `TRANSLATION_FEED_ATOM = None`. -/
def TRANSLATION_FEED_ATOM : Option String := Option.none

/-- Source: `AUTHOR_FEED_ATOM = None`. -/
def AUTHOR_FEED_ATOM : Option String := Option.none

/-- Source: `AUTHOR_FEED_RSS = None`. -/
def AUTHOR_FEED_RSS : Option String := Option.none

/-- Source: `STATIC_PATHS = [ 'extras/CNAME', 'extras/favicon.ico', 'images' ]`. -/
def STATIC_PATHS : List String :=
  ["extras/CNAME", "extras/favicon.ico", "images"]

/-- Source: `EXTRA_PATH_METADATA = \x7b 'extras/CNAME': ..., 'extras/favicon.ico': ... \x7d`,
a mapping from static path to its custom output path. -/
def EXTRA_PATH_METADATA : List (String × PathMeta) :=
  [("extras/CNAME", ⟨"CNAME"⟩), ("extras/favicon.ico", ⟨"favicon.ico"⟩)]

/-- Source: the `LINKS` tuple of (label, URL) pairs, in source order. -/
def LINKS : List (String × String) :=
  [("Pelican", "http://getpelican.com/"),
   ("Python.org", "http://python.org/"),
   ("Jinja2", "http://jinja.pocoo.org/"),
   ("You can modify those links in your config file", "#")]

/-- Source: the `SOCIAL` tuple of (label, URL) pairs, in source order. -/
def SOCIAL : List (String × String) :=
  [("You can add links in your config file", "#"),
   ("Another social link", "#")]

/-- Source: `DEFAULT_PAGINATION = False`. -/
def DEFAULT_PAGINATION : Bool := false

/-- Source: `MD_EXTENSIONS = ['codehilite(css_class=highlight)', 'extra']`. -/
def MD_EXTENSIONS : List String :=
  ["codehilite(css_class=highlight)", "extra"]

/-- The spec's ConfigurationRecord: the named settings the module defines.
`relative_urls` is an `Option Bool`: `none` when the `RELATIVE_URLS`
assignment is commented out (inactive), as it is in the source. -/
structure ConfigurationRecord where
  author : String
  sitename : String
  siteurl : String
  timezone : String
  default_lang : String
  default_date_format : String
  theme : String
  feed_all_atom : Option String
  category_feed_atom : Option String
  translation_feed_atom : Option String
  author_feed_atom : Option String
  author_feed_rss : Option String
  static_paths : List String
  extra_path_metadata : List (String × PathMeta)
  links : List (String × String)
  social : List (String × String)
  default_pagination : Bool
  md_extensions : List String
  relative_urls : Option Bool
deriving DecidableEq, Repr

/-- The record loaded from `pelicanconf.py` (the development variant):
every field is the corresponding literal of the source; `RELATIVE_URLS`
is commented out, hence `relative_urls := none`. -/
def pelicanconf : ConfigurationRecord where
  author := AUTHOR
  sitename := SITENAME
  siteurl := SITEURL
  timezone := TIMEZONE
  default_lang := DEFAULT_LANG
  default_date_format := DEFAULT_DATE_FORMAT
  theme := THEME
  feed_all_atom := FEED_ALL_ATOM
  category_feed_atom := CATEGORY_FEED_ATOM
  translation_feed_atom := TRANSLATION_FEED_ATOM
  author_feed_atom := AUTHOR_FEED_ATOM
  author_feed_rss := AUTHOR_FEED_RSS
  static_paths := STATIC_PATHS
  extra_path_metadata := EXTRA_PATH_METADATA
  links := LINKS
  social := SOCIAL
  default_pagination := DEFAULT_PAGINATION
  md_extensions := MD_EXTENSIONS
  relative_urls := Option.none

/-- Modelled from the spec: the production variant (the second of the "two
similarly named files") is not under src/. Per the spec it differs from the
development variant only in `site_url` (a public domain instead of
`localhost:8000`), in the feed flags (disabled in the shown samples, so
unchanged here), and in carrying the static-asset path mappings (already
present). The repository's GitHub Pages domain stands in for the public
domain the spec mentions without naming. -/
def publishconf : ConfigurationRecord :=
  { pelicanconf with siteurl := "https://agocke.github.io" }

/-- The deployment variants of the configuration: development, production. -/
def variants : List ConfigurationRecord := [pelicanconf, publishconf]

/-- Characters allowed in a URL scheme after its first character. -/
def isSchemeChar (c : Char) : Bool :=
  c.isAlpha || c.isDigit || c == '+' || c == '-' || c == '.'

/-- Split a character list at the first occurrence of the literal
separator `://`, returning the parts before and after it. -/
def splitAtSchemeSep : List Char → Option (List Char × List Char)
  | ':' :: '/' :: '/' :: rest => Option.some ([], rest)
  | c :: cs =>
      match splitAtSchemeSep cs with
      | Option.some (a, b) => Option.some (c :: a, b)
      | Option.none => Option.none
  | [] => Option.none

/-- Syntactic absolute-URL check: the string is `scheme://hostpart...` with
a nonempty scheme whose first character is a letter and whose remaining
characters are scheme characters, and a nonempty host (the characters after
`://` and before the next `/`). -/
def isValidAbsoluteUrl (s : String) : Bool :=
  match splitAtSchemeSep s.data with
  | Option.some (scheme, rest) =>
      (match scheme with
       | [] => false
       | c :: cs => c.isAlpha && cs.all isSchemeChar)
      && (rest.takeWhile (fun c => c != '/')).length != 0
  | Option.none => false

/-- A bare `host:port` reference: a nonempty host of letters, digits, dots
and hyphens, then a colon, then a nonempty run of digits, and nothing else. -/
def isBareHostPort (s : String) : Bool :=
  match s.data.splitOn ':' with
  | [host, port] =>
      host.length != 0
      && host.all (fun c => c.isAlpha || c.isDigit || c == '.' || c == '-')
      && port.length != 0
      && port.all Char.isDigit
  | _ => false

/-- Complete a schemeless URL character sequence with the default
`http://` scheme; leave a sequence that already has one unchanged. -/
def completeScheme (l : List Char) : List Char :=
  match splitAtSchemeSep l with
  | Option.some _ => l
  | Option.none => ("http://".data) ++ l

/-- Modelled from the spec: the spec calls the development `site_url` an
"`'http://localhost:8000'`-equivalent value". Two URL strings are
equivalent when completing a missing scheme with the default `http://`
yields the same character sequence. -/
def urlEquivDefaultHttp (a b : String) : Bool :=
  completeScheme a.data == completeScheme b.data

/-- The configuration's feed flags, as (setting name, value) pairs in
source order. -/
def feedFlags (c : ConfigurationRecord) : List (String × Option String) :=
  [("FEED_ALL_ATOM", c.feed_all_atom),
   ("CATEGORY_FEED_ATOM", c.category_feed_atom),
   ("TRANSLATION_FEED_ATOM", c.translation_feed_atom),
   ("AUTHOR_FEED_ATOM", c.author_feed_atom),
   ("AUTHOR_FEED_RSS", c.author_feed_rss)]

/-- Replace the five feed-flag fields of a record, leaving every other
field unchanged. -/
def setFeeds (c : ConfigurationRecord) (a b d e f : Option String) :
    ConfigurationRecord :=
  { c with feed_all_atom := a, category_feed_atom := b,
           translation_feed_atom := d, author_feed_atom := e,
           author_feed_rss := f }

/-- A static path has a custom output location when it is a key of
`extra_path_metadata`. -/
def hasCustomOutput (c : ConfigurationRecord) (p : String) : Bool :=
  (List.map Prod.fst c.extra_path_metadata).contains p

/-- The six required keys are all set to nonempty values. -/
def requiredNonEmpty (c : ConfigurationRecord) : Bool :=
  c.author != "" && c.sitename != "" && c.siteurl != ""
    && c.timezone != "" && c.default_lang != "" && c.theme != ""

/-- The kinds of value a configuration assignment can carry. -/
inductive PyValue where
  | str : String → PyValue
  | pynone : PyValue
  | pybool : Bool → PyValue
  | strList : List String → PyValue
  | pairList : List (String × String) → PyValue
  | metaDict : List (String × PathMeta) → PyValue
deriving DecidableEq, Repr

/-- The right-hand side of a configuration assignment: a literal, or one
of the effectful forms a Python module could in principle contain
(environment read, stdin read). The source module uses only literals. -/
inductive PyExpr where
  | lit : PyValue → PyExpr
  | envRead : String → PyExpr
  | inputRead : PyExpr
deriving DecidableEq, Repr

/-- Whether an assignment right-hand side is a literal constant. -/
def PyExpr.isLit : PyExpr → Bool
  | .lit _ => true
  | _ => false

/-- The outside world a module evaluation could observe: the process
environment and standard input. -/
structure World where
  env : String → String
  stdin : List String

/-- Evaluate an assignment right-hand side against a world. -/
def evalExpr (w : World) : PyExpr → PyValue
  | .lit v => v
  | .envRead k => .str (w.env k)
  | .inputRead => .str (w.stdin.headD (""))

/-- The module body of `pelicanconf.py`: its assignment statements, in
source order, each binding a name to a literal value. The commented-out
`RELATIVE_URLS` line is not a statement and so does not appear. -/
def moduleStatements : List (String × PyExpr) :=
  [("AUTHOR", .lit (.str AUTHOR)),
   ("SITENAME", .lit (.str SITENAME)),
   ("SITEURL", .lit (.str SITEURL)),
   ("TIMEZONE", .lit (.str TIMEZONE)),
   ("DEFAULT_LANG", .lit (.str DEFAULT_LANG)),
   ("DEFAULT_DATE_FORMAT", .lit (.str DEFAULT_DATE_FORMAT)),
   ("THEME", .lit (.str THEME)),
   ("FEED_ALL_ATOM", .lit .pynone),
   ("CATEGORY_FEED_ATOM", .lit .pynone),
   ("TRANSLATION_FEED_ATOM", .lit .pynone),
   ("AUTHOR_FEED_ATOM", .lit .pynone),
   ("AUTHOR_FEED_RSS", .lit .pynone),
   ("STATIC_PATHS", .lit (.strList STATIC_PATHS)),
   ("EXTRA_PATH_METADATA", .lit (.metaDict EXTRA_PATH_METADATA)),
   ("LINKS", .lit (.pairList LINKS)),
   ("SOCIAL", .lit (.pairList SOCIAL)),
   ("DEFAULT_PAGINATION", .lit (.pybool DEFAULT_PAGINATION)),
   ("MD_EXTENSIONS", .lit (.strList MD_EXTENSIONS))]

/-- The names the module assigns, in source order. -/
def assignedNames : List String := List.map Prod.fst moduleStatements

/-- Run the module against a world: evaluate each assignment in order. -/
def runModule (w : World) : List (String × PyValue) :=
  List.map (fun s => (s.1, evalExpr w s.2)) moduleStatements

/-- Claim C1, counterexample: in the development variant the relative-URL
override is inactive (`RELATIVE_URLS` is commented out), yet `SITEURL` is
`'localhost:8000'`, which is not a syntactically valid absolute URL: it
has no `://` separator, hence no scheme-plus-host structure. -/
theorem siteurl_without_scheme :
    pelicanconf ∈ variants
    ∧ pelicanconf.relative_urls = Option.none
    ∧ pelicanconf.siteurl = ("localhost:8000")
    ∧ isValidAbsoluteUrl pelicanconf.siteurl = false := by decide

/-- Claim C1, amended: in every deployment variant with the relative-URL
override inactive, `site_url` is either a syntactically valid absolute URL
or a bare `host:port` reference (the development variant's
`'localhost:8000'` is the latter). -/
theorem siteurl_absolute_or_bare_hostport :
    ∀ c ∈ variants, c.relative_urls = Option.none →
      (isValidAbsoluteUrl c.siteurl || isBareHostPort c.siteurl) = true := by
  decide

/-- Witness for the amended claim C1 at the development variant. -/
theorem siteurl_absolute_or_bare_hostport_witness :
    (isValidAbsoluteUrl pelicanconf.siteurl
      || isBareHostPort pelicanconf.siteurl) = true :=
  siteurl_absolute_or_bare_hostport pelicanconf (by decide) (by decide)

/-- Claim C2: the development variant's `site_url` is equivalent to
`'http://localhost:8000'` (equal once the missing default `http://` scheme
is completed), and every feed flag — the four Atom flags and the RSS flag —
is disabled (`None`). -/
theorem dev_variant_siteurl_and_feeds :
    urlEquivDefaultHttp pelicanconf.siteurl ("http://localhost:8000") = true
    ∧ pelicanconf.feed_all_atom = Option.none
    ∧ pelicanconf.category_feed_atom = Option.none
    ∧ pelicanconf.translation_feed_atom = Option.none
    ∧ pelicanconf.author_feed_atom = Option.none
    ∧ pelicanconf.author_feed_rss = Option.none := by decide

/-- Claim C3, counterexample: the configuration carries five feed flags
(`FEED_ALL_ATOM`, `CATEGORY_FEED_ATOM`, `TRANSLATION_FEED_ATOM`,
`AUTHOR_FEED_ATOM`, `AUTHOR_FEED_RSS`), not exactly four. -/
theorem five_feed_flags_not_four :
    (feedFlags pelicanconf).length = 5
    ∧ ¬ (feedFlags pelicanconf).length = 4 := by decide

/-- Claim C3, amended: the feed flags are exactly five independent
toggles: any combination of the five optional values is representable, and
setting them touches no other field of the record. -/
theorem feed_flags_five_independent :
    ∀ a b d e f : Option String,
      feedFlags (setFeeds pelicanconf a b d e f)
        = [("FEED_ALL_ATOM", a), ("CATEGORY_FEED_ATOM", b),
           ("TRANSLATION_FEED_ATOM", d), ("AUTHOR_FEED_ATOM", e),
           ("AUTHOR_FEED_RSS", f)]
      ∧ (feedFlags (setFeeds pelicanconf a b d e f)).length = 5
      ∧ (setFeeds pelicanconf a b d e f).siteurl = pelicanconf.siteurl
      ∧ (setFeeds pelicanconf a b d e f).static_paths
          = pelicanconf.static_paths
      ∧ (setFeeds pelicanconf a b d e f).links = pelicanconf.links := by
  intro a b d e f
  exact ⟨rfl, rfl, rfl, rfl, rfl⟩

/-- Claim C4, counterexample: the development variant — the one whose
`site_url` is `localhost:8000` — itself contains the CNAME and favicon
static-asset mappings, so they are not present only in the production
variant. -/
theorem dev_variant_has_static_mappings :
    pelicanconf.siteurl = ("localhost:8000")
    ∧ ("extras/CNAME") ∈ pelicanconf.static_paths
    ∧ ("extras/favicon.ico") ∈ pelicanconf.static_paths
    ∧ ("extras/CNAME") ∈ List.map Prod.fst pelicanconf.extra_path_metadata
    ∧ ("extras/favicon.ico")
        ∈ List.map Prod.fst pelicanconf.extra_path_metadata := by decide

/-- Claim C4, amended: the CNAME and favicon static-asset path mappings
are present in every deployment variant, the development one included. -/
theorem static_mappings_in_all_variants :
    ∀ c ∈ variants,
      ("extras/CNAME") ∈ c.static_paths
      ∧ ("extras/favicon.ico") ∈ c.static_paths
      ∧ ("extras/CNAME") ∈ List.map Prod.fst c.extra_path_metadata
      ∧ ("extras/favicon.ico") ∈ List.map Prod.fst c.extra_path_metadata := by
  decide

/-- Witness for the amended claim C4 at the development variant. -/
theorem static_mappings_in_all_variants_witness :
    ("extras/CNAME") ∈ pelicanconf.static_paths
    ∧ ("extras/favicon.ico") ∈ pelicanconf.static_paths
    ∧ ("extras/CNAME") ∈ List.map Prod.fst pelicanconf.extra_path_metadata
    ∧ ("extras/favicon.ico")
        ∈ List.map Prod.fst pelicanconf.extra_path_metadata :=
  static_mappings_in_all_variants pelicanconf (by decide)

/-- Claim C5: every `extra_path_metadata` key appears in `static_paths`;
the `images` entry of `static_paths` has no `extra_path_metadata` key and
so receives default output placement; and the `extra_path_metadata` keys
are exactly the `static_paths` entries with a custom output path. -/
theorem static_paths_metadata_coherence :
    ((List.map Prod.fst pelicanconf.extra_path_metadata).all
        (fun k => pelicanconf.static_paths.contains k)) = true
    ∧ ("images") ∈ pelicanconf.static_paths
    ∧ hasCustomOutput pelicanconf ("images") = false
    ∧ pelicanconf.static_paths.filter (hasCustomOutput pelicanconf)
        = List.map Prod.fst pelicanconf.extra_path_metadata := by decide

/-- Claim C6: the six required keys (author, site_name, site_url,
timezone, default_language, theme) are nonempty in every deployment
variant, and the theme of each variant is the nonempty path identifier
`themes/commentout`. -/
theorem required_keys_nonempty :
    (variants.all requiredNonEmpty) = true
    ∧ (variants.all (fun c => c.theme != "")) = true
    ∧ pelicanconf.theme = ("themes/commentout")
    ∧ publishconf.theme = ("themes/commentout") := by decide

/-- Claim C7: the module assigns 18 names, no name twice — each field of
the loaded record is set exactly once at load time, and the embedding has
no mutation after load. -/
theorem names_assigned_once :
    assignedNames.Nodup
    ∧ assignedNames.length = 18
    ∧ (assignedNames.all (fun n => assignedNames.count n == 1)) = true := by
  decide

/-- Claim C8: the loaded record's `links` and `social_links` are exactly
the declared ordered pair sequences, position by position. -/
theorem links_order_preserved :
    pelicanconf.links = LINKS
    ∧ pelicanconf.social = SOCIAL
    ∧ LINKS.length = 4
    ∧ SOCIAL.length = 2
    ∧ (∀ i : Nat, pelicanconf.links[i]? = LINKS[i]?)
    ∧ (∀ i : Nat, pelicanconf.social[i]? = SOCIAL[i]?) :=
  ⟨rfl, rfl, rfl, rfl, fun _ => rfl, fun _ => rfl⟩

/-- Claim C9: every statement of the module is a literal constant
assignment, so running the module is deterministic and independent of the
outside world: any two worlds yield the same record of bindings. -/
theorem module_load_deterministic :
    (moduleStatements.all (fun s => s.2.isLit)) = true
    ∧ ∀ w1 w2 : World, runModule w1 = runModule w2 :=
  ⟨by decide, fun _ _ => rfl⟩

/-- Claim C10: at least one `links` entry and every `social_links` entry
carries the placeholder URL `'#'`, which is not a valid absolute URL, so
neither sequence satisfies the `site_url` validity rule throughout. -/
theorem placeholder_link_urls :
    (pelicanconf.links.any (fun p => p.2 == ("#"))) = true
    ∧ (pelicanconf.social.all (fun p => p.2 == ("#"))) = true
    ∧ isValidAbsoluteUrl ("#") = false
    ∧ (pelicanconf.links.all (fun p => isValidAbsoluteUrl p.2)) = false
    ∧ (pelicanconf.social.all (fun p => isValidAbsoluteUrl p.2)) = false := by
  decide
